import Mathlib

/-!
Verification of the autochecker batch-grading pipeline (CIL-utility).

Shallow embedding of the Python sources:
- `autochecker/engine.py` — the check engine (`CheckEngine.run_check` and the
  five check primitives);
- `autochecker/batch_processor.py` — the per-student pipeline
  (`process_single_student`);
- `autochecker/plagiarism_checker.py` — the duplicate detector
  (`add_student_code`, `check_plagiarism`, `get_all_plagiarism_report`);
- `autochecker/repo_reader.py` — the zip-archive file reader
  (`file_exists`, `read_file`).

Modelling conventions:
- Python dicts are association lists in insertion order (`alookup`,
  `dictInsert` mirror lookup and `d[k] = v`);
- Python's `re` patterns are represented by their parsed form (`Regex`), and
  `re.match` (anchored at position 0, matching any prefix) by `reMatch`,
  built on Brzozowski derivatives;
- numeric scores and similarities are rationals (the Python code uses
  floats; every value appearing in the claims is exactly representable);
- exceptions are an `Except String` channel; decode errors of keyword
  arguments stand in for the `TypeError`s CPython raises for malformed
  `**params`.
-/

/-! ## A regex engine for Python's `re.match`
`matchExact r cs` decides whether `r` matches the whole of `cs`;
`reMatch r cs` decides whether `r` matches some prefix of `cs`, which is what
`re.match(pattern, s)` tests (anchored at position 0, not anchored at the
end). -/

inductive Regex where
  | emptyset : Regex
  | epsilon : Regex
  | char (c : Char) : Regex
  | anychar : Regex
  | alt (r1 r2 : Regex) : Regex
  | cat (r1 r2 : Regex) : Regex
  | star (r : Regex) : Regex
deriving DecidableEq

def Regex.nullable : Regex → Bool
  | .emptyset => false
  | .epsilon => true
  | .char _ => false
  | .anychar => false
  | .alt r1 r2 => r1.nullable || r2.nullable
  | .cat r1 r2 => r1.nullable && r2.nullable
  | .star _ => true

def Regex.deriv (c : Char) : Regex → Regex
  | .emptyset => .emptyset
  | .epsilon => .emptyset
  | .char d => if d = c then .epsilon else .emptyset
  | .anychar => .epsilon
  | .alt r1 r2 => .alt (r1.deriv c) (r2.deriv c)
  | .cat r1 r2 =>
      if r1.nullable then .alt (.cat (r1.deriv c) r2) (r2.deriv c)
      else .cat (r1.deriv c) r2
  | .star r => .cat (r.deriv c) (.star r)

/-- Does `r` match the whole character list? -/
def matchExact (r : Regex) : List Char → Bool
  | [] => r.nullable
  | c :: cs => matchExact (r.deriv c) cs

/-- Does `r` match some prefix of the character list?  This is the boolean
value of Python's `re.match(pattern, s)`. -/
def reMatch (r : Regex) : List Char → Bool
  | [] => r.nullable
  | c :: cs => r.nullable || reMatch (r.deriv c) cs

/-! ## String helpers mirroring the Python string operations used
All operate on the underlying character lists so that they reduce well in
proofs.  `containsSub` is Python's `in` on strings; `stripAll` is
`s.replace(pat, '')` (left-to-right, non-overlapping; with an empty pattern
CPython's `replace` with an empty replacement returns `s` unchanged). -/

def isPrefixL : List Char → List Char → Bool
  | [], _ => true
  | _ :: _, [] => false
  | p :: ps, c :: cs => p = c && isPrefixL ps cs

def containsL (pat : List Char) : List Char → Bool
  | [] => isPrefixL pat []
  | c :: cs => isPrefixL pat (c :: cs) || containsL pat cs

def strStartsWith (s pat : String) : Bool := isPrefixL pat.data s.data

def strEndsWith (s pat : String) : Bool := isPrefixL pat.data.reverse s.data.reverse

def containsSub (s pat : String) : Bool := containsL pat.data s.data

def stripAllAux (p : Char) (ps : List Char) : Nat → List Char → List Char
  | 0, _ => []
  | _, [] => []
  | fuel + 1, c :: cs =>
      if isPrefixL (p :: ps) (c :: cs) then
        stripAllAux p ps fuel ((c :: cs).drop (p :: ps).length)
      else c :: stripAllAux p ps fuel cs

/-- Python's `s.replace(pat, '')`: remove the leftmost, non-overlapping
occurrences of `pat`.  The fuel (one unit per character examined, and the
recursion always consumes at least one character) keeps the recursion
structural. -/
def stripAll (s pat : String) : String :=
  match pat.data with
  | [] => s
  | p :: ps => ⟨stripAllAux p ps s.data.length s.data⟩

/-- Python's `s[:n]` for strings (used as `str(e)[:200]`). -/
def pyTruncate (s : String) (n : Nat) : String := ⟨s.data.take n⟩

def strToLower (s : String) : String := ⟨s.data.map Char.toLower⟩

/-! ## Association lists with Python-dict semantics
`alookup` is `d.get(k)` / `k in d`; `dictInsert` is `d[k] = v` (an existing
key keeps its position and gets the new value, a fresh key is appended). -/

def alookup {β : Type} (k : String) : List (String × β) → Option β
  | [] => none
  | (k2, v) :: rest => if k2 = k then some v else alookup k rest

def dictInsert {β : Type} (k : String) (v : β) : List (String × β) → List (String × β)
  | [] => [(k, v)]
  | (k2, v2) :: rest => if k2 = k then (k, v) :: rest else (k2, v2) :: dictInsert k v rest

/-! ## Data model (external collaborators' data, given as plain values)
- `RepoInfo` is the JSON of `GitHubClient.get_repo_info` (the fields the
  core reads: `private`, `default_branch`, `html_url`);
- `Commit` carries the nested `commit.commit.message` flattened to one field;
- `PullRequest.merged_at` is `None` for an unmerged PR;
- `ZipData` is the in-memory archive of `RepoReader`: `namelist()` entries in
  order, each with its decoded content (`none` when the member cannot be
  read or decoded as UTF-8). -/

structure RepoInfo where
  isPrivate : Bool
  default_branch : String
  html_url : String
deriving DecidableEq

structure Commit where
  message : String
deriving DecidableEq

structure Issue where
  title : String
deriving DecidableEq

structure PullRequest where
  merged_at : Option String
deriving DecidableEq

structure ZipEntry where
  name : String
  content : Option String
deriving DecidableEq

structure ZipData where
  entries : List ZipEntry
deriving DecidableEq

/-- One student's repository data as the per-student pipeline sees it:
`repoInfo` is what `get_repo_info` returns (`none`: unreachable), the three
lists are what `get_commits` / `get_issues` / `get_pull_requests` return,
and `zip` is the `RepoReader`'s archive (`none`: download failed). -/
structure Snapshot where
  repoInfo : Option RepoInfo
  commits : List Commit
  issues : List Issue
  pulls : List PullRequest
  zip : Option ZipData

/-! ## RepoReader (`autochecker/repo_reader.py`) -/

/-- The archive's root directory, `namelist()[0]` (repo_reader.py line 31). -/
def rootDir (z : ZipData) : String := ((z.entries.map fun e => e.name).headD "")

/-- `RepoReader.file_exists` (repo_reader.py lines 39-44). -/
def reader_file_exists (zip : Option ZipData) (path : String) : Bool :=
  match zip with
  | none => false
  | some z => (z.entries.map fun e => e.name).contains (rootDir z ++ path)

/-- `RepoReader.read_file` (repo_reader.py lines 46-56).  `zipfile` resolves a
duplicated member name to its last entry, hence `reverse.find?`; a `none`
content models a member that fails to decode as UTF-8. -/
def read_file (z : ZipData) (path : String) : Option String :=
  match z.entries.reverse.find? (fun e => e.name == rootDir z ++ path) with
  | some e => e.content
  | none => none

/-! ## Check engine (`autochecker/engine.py`) -/

/-- `CheckResult` of engine.py lines 7-11 as `run_check` builds it
(line 93: id, status, details). -/
structure CheckResult where
  id : String
  status : String
  details : String
deriving DecidableEq

/-- `CheckEngine._get_commits` (engine.py lines 20-27): the commit list is
fetched only when `get_repo_info()` answers, otherwise it is `[]`. -/
def get_commits_cached (snap : Snapshot) : List Commit :=
  match snap.repoInfo with
  | some _ => snap.commits
  | none => []

/-- `CheckEngine.check_repo_exists` (engine.py lines 41-42). -/
def check_repo_exists (snap : Snapshot) : Bool := snap.repoInfo.isSome

/-- `CheckEngine.check_file_exists` (engine.py lines 44-45). -/
def check_file_exists (snap : Snapshot) (path : String) : Bool :=
  reader_file_exists snap.zip path

/-- `CheckEngine.check_commit_message_regex` (engine.py lines 47-55). -/
def check_commit_message_regex (snap : Snapshot) (pattern : Regex) : Bool :=
  let commits := get_commits_cached snap
  if commits.isEmpty then false
  else commits.all fun c => reMatch pattern c.message.data

/-- Python truthiness of `pr.get('merged_at')`: `None` and `""` are falsy. -/
def truthyOpt : Option String → Bool
  | none => false
  | some s => !(s == "")

/-- `CheckEngine.check_issues_count` (engine.py lines 57-63). -/
def check_issues_count (snap : Snapshot) (title_regex : Regex) (min_count : Int) : Bool :=
  decide (min_count ≤ ((snap.issues.countP fun i => reMatch title_regex i.title.data : Nat) : Int))

/-- `CheckEngine.check_pr_merged_count` (engine.py lines 65-68). -/
def check_pr_merged_count (snap : Snapshot) (min_count : Int) : Bool :=
  decide (min_count ≤ ((snap.pulls.countP fun p => truthyOpt p.merged_at : Nat) : Int))

/-! ### `run_check` and its exception channel
`params` models the YAML `params` mapping handed to a check via `**params`.
A regex-valued parameter is a string parameter holding a pattern,
represented by its parsed form.  The decode helpers return `.error` exactly
where CPython raises a `TypeError` for malformed keyword arguments; the
message text stands in for the interpreter's. -/

inductive PyVal where
  | vstr (s : String) : PyVal
  | vint (n : Int) : PyVal
  | vregex (r : Regex) : PyVal
deriving DecidableEq

abbrev Params := List (String × PyVal)

/-- Unpack `**params` for a check taking exactly one keyword argument. -/
def kwargs1 (params : Params) (k : String) : Except String PyVal :=
  match params with
  | [(k2, v)] =>
      if k2 = k then .ok v
      else .error ("TypeError: unexpected keyword argument " ++ k2)
  | [] => .error ("TypeError: missing required argument " ++ k)
  | _ => .error "TypeError: unexpected keyword arguments"

/-- Unpack `**params` for a check taking exactly two keyword arguments
(a Python dict may list them in either order). -/
def kwargs2 (params : Params) (k1 k2 : String) : Except String (PyVal × PyVal) :=
  match params with
  | [(a, va), (b, vb)] =>
      if a = k1 && b = k2 then .ok (va, vb)
      else if a = k2 && b = k1 then .ok (vb, va)
      else .error "TypeError: unexpected keyword arguments"
  | _ => .error "TypeError: wrong number of keyword arguments"

def asStr : PyVal → Except String String
  | .vstr s => .ok s
  | _ => .error "TypeError: expected a string"

def asInt : PyVal → Except String Int
  | .vint n => .ok n
  | _ => .error "TypeError: expected an integer"

def asRegex : PyVal → Except String Regex
  | .vregex r => .ok r
  | _ => .error "TypeError: expected a pattern string"

def passFail (b : Bool) : String := if b then "PASS" else "FAIL"

/-- The `try` body of `CheckEngine.run_check` (engine.py lines 74-87): the
status/details pair it computes, or the exception it raises.  The final
`else` branch (unknown type, lines 85-87) sets ERROR without raising. -/
def checkBody (snap : Snapshot) (check_type : String) (params : Params) :
    Except String (String × String) :=
  if check_type = "repo_exists" then
    .ok (passFail (check_repo_exists snap), "")
  else if check_type = "file_exists" then
    match kwargs1 params "path" with
    | .error e => .error e
    | .ok v =>
        match asStr v with
        | .error e => .error e
        | .ok path => .ok (passFail (check_file_exists snap path), "")
  else if check_type = "commit_message_regex" then
    match kwargs1 params "pattern" with
    | .error e => .error e
    | .ok v =>
        match asRegex v with
        | .error e => .error e
        | .ok r => .ok (passFail (check_commit_message_regex snap r), "")
  else if check_type = "issues_count" then
    match kwargs2 params "title_regex" "min_count" with
    | .error e => .error e
    | .ok vv =>
        match asRegex vv.1 with
        | .error e => .error e
        | .ok r =>
            match asInt vv.2 with
            | .error e => .error e
            | .ok n => .ok (passFail (check_issues_count snap r n), "")
  else if check_type = "pr_merged_count" then
    match kwargs1 params "min_count" with
    | .error e => .error e
    | .ok v =>
        match asInt v with
        | .error e => .error e
        | .ok n => .ok (passFail (check_pr_merged_count snap n), "")
  else
    .ok ("ERROR", "Неизвестный тип проверки: " ++ check_type)

/-- The five `type` strings `run_check` dispatches on. -/
def recognizedTypes : List String :=
  ["repo_exists", "file_exists", "commit_message_regex", "issues_count", "pr_merged_count"]

/-- The ERROR details of the `except` branch (engine.py line 91). -/
def exceptionDetails (check_id e : String) : String :=
  "Ошибка при выполнении проверки '" ++ check_id ++ "': " ++ e

/-- `CheckEngine.run_check` (engine.py lines 70-93). -/
def run_check (snap : Snapshot) (check_id check_type : String) (params : Params) :
    CheckResult :=
  match checkBody snap check_type params with
  | .ok (status, details) => ⟨check_id, status, details⟩
  | .error e => ⟨check_id, "ERROR", exceptionDetails check_id e⟩

/-! ## Duplicate detector (`autochecker/plagiarism_checker.py`)
The checker's state `_student_code_signatures` is a dict
`student_alias -> {file_path -> code_hash}`; `Sig` is one student's
signature, `PState` the whole mapping.  The content digest (`hashlib.md5 ...
hexdigest()`, line 41) is abstracted as a function `digest : String → String`
— it is used only for equality. -/

abbrev Sig := List (String × String)

abbrev PState := List (String × Sig)

def ignoredDirs : List String := [".git/", "node_modules/", "__pycache__/", ".venv/"]

def ignoreExtensions : List String :=
  [".png", ".jpg", ".jpeg", ".gif", ".pdf", ".zip", ".exe"]

/-- The `all_files` filter of `add_student_code` (plagiarism_checker.py
lines 22-23): keep archive members that are not directories and start with
the root directory. -/
def fileFilter (root : String) (e : ZipEntry) : Bool :=
  !strEndsWith e.name "/" && strStartsWith e.name root

/-- Is the file skipped because its path contains an ignored directory
marker (line 30, Python `in` on strings)? -/
def inIgnoredDir (name : String) : Bool :=
  ignoredDirs.any fun d => containsSub name d

/-- Is the file skipped because of its extension (line 34)? -/
def hasIgnoredExt (name : String) : Bool :=
  ignoreExtensions.any fun ext => strEndsWith (strToLower name) ext

/-- The body of the `for file_path in all_files` loop of `add_student_code`
(plagiarism_checker.py lines 28-46), one step of the signature build:
skip ignored directories and extensions, read the file, and only a truthy
(non-`None`, non-empty) content is hashed and recorded under the
normalized path `file_path.replace(root_dir, '')`. -/
def sigStep (digest : String → String) (z : ZipData) (sig : Sig) (e : ZipEntry) : Sig :=
  if inIgnoredDir e.name then sig
  else if hasIgnoredExt e.name then sig
  else
    let normalized := stripAll e.name (rootDir z)
    match read_file z normalized with
    | some content => if content = "" then sig else dictInsert normalized (digest content) sig
    | none => sig

/-- The signature dict `add_student_code` computes for one archive
(plagiarism_checker.py lines 16-47). -/
def computeSignatures (digest : String → String) (z : ZipData) : Sig :=
  ((z.entries.filter (fileFilter (rootDir z))).foldl (sigStep digest z) [])

/-- `PlagiarismChecker.add_student_code` (plagiarism_checker.py lines 14-49):
with no archive it returns before registering anything (lines 18-19),
otherwise it stores the computed signature under the student's alias
(line 48). -/
def add_student_code (digest : String → String) (student_alias : String)
    (zip : Option ZipData) (st : PState) : PState :=
  match zip with
  | none => st
  | some z => dictInsert student_alias (computeSignatures digest z) st

/-- `DuplicateMatch`: the dict appended at plagiarism_checker.py lines 85-92. -/
structure DuplicateMatch where
  suspicious_student : String
  similarity_score : ℚ
  identical_files : List String
  common_files_count : Nat
  total_files_student : Nat
  total_files_other : Nat
deriving DecidableEq

/-- `common_files` (line 68).  Python intersects two key sets; the model
lists the student's keys that also key the other's signature (set iteration
order is unspecified in Python, so only membership and length are
meaningful). -/
def commonOf (sfiles ofiles : Sig) : List String :=
  (sfiles.map Prod.fst).filter fun p => (ofiles.map Prod.fst).contains p

/-- `identical_files` (lines 72-77): the common paths whose digests agree. -/
def identicalOf (sfiles ofiles : Sig) : List String :=
  (commonOf sfiles ofiles).filter fun p =>
    if alookup p sfiles = alookup p ofiles then true else false

/-- One iteration of the `for other_student, other_files in ...items()` loop
of `check_plagiarism` (plagiarism_checker.py lines 63-92): the match this
candidate contributes, if any. -/
def matchFor (sfiles : Sig) (threshold : ℚ) (student_alias : String)
    (entry : String × Sig) : Option DuplicateMatch :=
  if entry.1 = student_alias then none
  else
    let ofiles := entry.2
    let common := commonOf sfiles ofiles
    if common = [] then none
    else
      let identical := identicalOf sfiles ofiles
      if identical = [] then none
      else
        let similarity := (identical.length : ℚ) / ((max sfiles.length ofiles.length : Nat) : ℚ)
        if threshold ≤ similarity then
          some ⟨entry.1, similarity, identical, common.length, sfiles.length, ofiles.length⟩
        else none

/-- Insert into a list sorted by descending similarity, after any element of
equal score: this is where an element lands under Python's stable
`matches.sort(key=..., reverse=True)` (line 95) when elements arrive in
list order. -/
def insertDesc (x : DuplicateMatch) : List DuplicateMatch → List DuplicateMatch
  | [] => [x]
  | y :: ys =>
      if y.similarity_score < x.similarity_score then x :: y :: ys
      else y :: insertDesc x ys

/-- Python's stable sort by descending `similarity_score` (line 95). -/
def sortDesc (l : List DuplicateMatch) : List DuplicateMatch :=
  l.foldl (fun acc x => insertDesc x acc) []

/-- `PlagiarismChecker.check_plagiarism` (plagiarism_checker.py
lines 51-96). -/
def check_plagiarism (st : PState) (student_alias : String) (threshold : ℚ) :
    List DuplicateMatch :=
  match alookup student_alias st with
  | none => []
  | some sfiles => sortDesc (st.filterMap (matchFor sfiles threshold student_alias))

/-- `PlagiarismChecker.get_all_plagiarism_report` (plagiarism_checker.py
lines 98-105): only students with a non-empty match list appear. -/
def get_all_plagiarism_report (st : PState) (threshold : ℚ) :
    List (String × List DuplicateMatch) :=
  st.filterMap fun entry =>
    let ms := check_plagiarism st entry.1 threshold
    if ms = [] then none else some (entry.1, ms)

/-- Registering a roster of (alias, signature) pairs one by one, the way the
batch run's workers call `add_student_code` (each worker contributes one
`dictInsert` into the shared dict). -/
def registerAll (roster : List (String × Sig)) : PState :=
  roster.foldl (fun st e => dictInsert e.1 e.2 st) []

/-! ## Per-student pipeline (`autochecker/batch_processor.py`)
`process_single_student` lines 17-136.  The model takes the student's
`Snapshot` (what the HTTP collaborators answer for this student) and the
shared plagiarism state, and returns the result dict together with the
updated plagiarism state. -/

/-- `CheckSpec` of `autochecker/spec.py` lines 6-11. -/
structure CheckSpec where
  id : String
  type : String
  params : Params
  description : String

/-- The result dict of `process_single_student`: either
`{status: "error", error: ...}` (lines 50-54, 62-66, 130-136) — with the
message `write_failure_report` put into the failure page, when one was
written — or `{status: "success", score, passed, total}` (lines 121-128)
together with the collected check results. -/
inductive StudentOutcome where
  | errorResult (error : String) (failureReport : Option String) : StudentOutcome
  | successResult (score : ℚ) (passed total : Nat) (results : List CheckResult) : StudentOutcome
deriving DecidableEq

/-- Parameters of `CheckEngine.run_check` as defined (engine.py line 70):
`self, check_id, check_type, params` — 4 in CPython's count. -/
def run_check_def_params : Nat := 4

/-- Arguments at the call site (batch_processor.py lines 82-87, and equally
main.py line 91): `engine, check_spec.id, check_spec.type,
check_spec.params, check_spec.description` — 5 in CPython's count. -/
def run_check_call_args : Nat := 5

/-- The dynamic call `engine.run_check(id, type, params, description)`: when
the argument count matches the definition the body runs, otherwise CPython
raises a `TypeError` before entering the function. -/
def callRunCheck (snap : Snapshot) (c : CheckSpec) : Except String CheckResult :=
  if run_check_call_args = run_check_def_params then
    .ok (run_check snap c.id c.type c.params)
  else
    .error "TypeError: run_check() takes 4 positional arguments but 5 were given"

/-- The `for check_spec in lab_spec.checks` loop (batch_processor.py
lines 80-88): results collected in order; an exception aborts the loop and
propagates to the handler of line 130. -/
def runAllChecks (snap : Snapshot) : List CheckSpec → Except String (List CheckResult)
  | [] => .ok []
  | c :: rest =>
      match callRunCheck snap c with
      | .error e => .error e
      | .ok r =>
          match runAllChecks snap rest with
          | .error e => .error e
          | .ok rs => .ok (r :: rs)

/-- `score = (passed / total * 100) if total > 0 else 0`
(batch_processor.py line 119; reporter.py line 18 computes the same). -/
def pyScore (passed total : Nat) : ℚ :=
  if total > 0 then (passed : ℚ) / (total : ℚ) * 100 else 0

/-- `process_single_student` (batch_processor.py lines 17-136), given the
data its collaborators answer.  LLM analysis is skipped (no
`gemini_api_key`); it cannot affect the score or the outcome either way
(lines 92-104 swallow every LLM failure). -/
def process_single_student (student_alias : String) (checks : List CheckSpec)
    (snap : Snapshot) (digest : String → String) (st : PState) :
    StudentOutcome × PState :=
  match snap.repoInfo with
  | none =>
      (.errorResult "Repository not found" (some "Репозиторий не найден или недоступен."), st)
  | some info =>
      if info.isPrivate then
        (.errorResult "Private repository" (some "Репозиторий является приватным."), st)
      else
        let st2 := add_student_code digest student_alias snap.zip st
        match runAllChecks snap checks with
        | .error e => (.errorResult (pyTruncate e 200) none, st2)
        | .ok results =>
            let passed := results.countP fun r => r.status == "PASS"
            let total := results.length
            (.successResult (pyScore passed total) passed total results, st2)

/-! ## The ordering used by the duplicate report -/

/-- Descending order of similarity: what `matches.sort(key=..., reverse=True)`
establishes. -/
def simOrd (a b : DuplicateMatch) : Prop :=
  b.similarity_score ≤ a.similarity_score

/-- Does the loop body of `add_student_code` obtain a truthy content for this
entry (`content = reader.read_file(...)` followed by `if content:`,
plagiarism_checker.py lines 38-39)? -/
def readNonempty (z : ZipData) (e : ZipEntry) : Bool :=
  match read_file z (stripAll e.name (rootDir z)) with
  | some c => if c = "" then false else true
  | none => false

/-! ## Concrete instances used by the claims' scenarios and witnesses -/

/-- A stand-in content digest (the claims never need collision facts). -/
def digId : String → String := fun s => s

def infoPub : RepoInfo := ⟨false, "main", "https://example.test/repo"⟩

def zipC1 : ZipData := ⟨[⟨"r/", none⟩, ⟨"r/README.md", some "hello"⟩]⟩

/-- Reachable public repository whose archive holds `README.md` and with no
pull requests: the scenario of the spec's two-check example. -/
def snapC1 : Snapshot := ⟨some infoPub, [], [], [], some zipC1⟩

def checksC1 : List CheckSpec :=
  [⟨"c1", "file_exists", [("path", .vstr "README.md")], "README exists"⟩,
   ⟨"c2", "pr_merged_count", [("min_count", .vint 1)], "one merged PR"⟩]

/-- Unreachable repository: `get_repo_info()` returns nothing. -/
def snapNone : Snapshot := ⟨none, [], [], [], none⟩

/-- Private repository. -/
def snapPriv : Snapshot := ⟨some ⟨true, "main", "https://example.test/repo"⟩, [], [], [], none⟩

/-- The regex `lab` (three literal characters). -/
def patLab : Regex := .cat (.char 'l') (.cat (.char 'a') (.char 'b'))

/-- One commit whose message starts with `lab` but does not equal it:
distinguishes prefix matching from full-string matching. -/
def snapC2 : Snapshot := ⟨some infoPub, [⟨"lab1: init"⟩], [], [], none⟩

/-- Signatures of the spec's duplicate scenario: 4 common files, 3 with
identical digests. -/
def sigA : Sig := [("f1", "h1"), ("f2", "h2"), ("f3", "h3"), ("f4", "ha")]

def sigB : Sig := [("f1", "h1"), ("f2", "h2"), ("f3", "h3"), ("f4", "hb")]

def stC3 : PState := [("A", sigA), ("B", sigB)]

def mC3 : DuplicateMatch := ⟨"B", 3/4, ["f1", "f2", "f3"], 4, 4, 4⟩

/-- One-file signature shared by the order-dependence counterexample's
students. -/
def sig1 : Sig := [("f", "h")]

def l41 : PState := [("A", sig1), ("B", sig1), ("C", sig1)]

def l42 : PState := [("A", sig1), ("C", sig1), ("B", sig1)]

def mB : DuplicateMatch := ⟨"B", 1, ["f"], 1, 1, 1⟩

def mC : DuplicateMatch := ⟨"C", 1, ["f"], 1, 1, 1⟩

def mA : DuplicateMatch := ⟨"A", 1, ["f"], 1, 1, 1⟩

def lw1 : PState := [("A", sig1), ("B", sig1)]

def lw2 : PState := [("B", sig1), ("A", sig1)]

/-- Archive whose only file `a.txt` is empty: eligible by the claimed
exclusion criteria, yet skipped by `if content:`. -/
def zC8 : ZipData := ⟨[⟨"r/", none⟩, ⟨"r/a.txt", some ""⟩]⟩

/-- The same archive with a non-empty `a.txt`. -/
def zC8b : ZipData := ⟨[⟨"r/", none⟩, ⟨"r/a.txt", some "x"⟩]⟩

/-! ## Lemmas about the regex engine -/

theorem matchExact_nil (r : Regex) : matchExact r [] = r.nullable := rfl

theorem matchExact_cons (r : Regex) (c : Char) (cs : List Char) :
    matchExact r (c :: cs) = matchExact (r.deriv c) cs := rfl

theorem reMatch_cons (r : Regex) (c : Char) (cs : List Char) :
    reMatch r (c :: cs) = (r.nullable || reMatch (r.deriv c) cs) := rfl

/-- `reMatch` is exactly anchored-prefix matching: it accepts a string iff
the pattern matches some prefix of it (and not necessarily the whole
string). -/
theorem reMatch_iff (s : List Char) : ∀ r : Regex,
    reMatch r s = true ↔ ∃ p q : List Char, s = p ++ q ∧ matchExact r p = true := by
  induction s with
  | nil =>
      intro r
      constructor
      · intro h
        exact ⟨[], [], rfl, h⟩
      · rintro ⟨p, q, hpq, hm⟩
        rcases (List.append_eq_nil).mp hpq.symm with ⟨hp, -⟩
        subst hp
        exact hm
  | cons c cs ih =>
      intro r
      rw [reMatch_cons, Bool.or_eq_true]
      constructor
      · rintro (hn | hd)
        · exact ⟨[], c :: cs, rfl, hn⟩
        · obtain ⟨p, q, hcs, hm⟩ := (ih (r.deriv c)).mp hd
          exact ⟨c :: p, q, by simp [hcs], by rwa [matchExact_cons]⟩
      · rintro ⟨p, q, hpq, hm⟩
        cases p with
        | nil =>
            left
            rwa [matchExact_nil] at hm
        | cons a p2 =>
            right
            rw [List.cons_append] at hpq
            injection hpq with h1 h2
            subst h1
            rw [matchExact_cons] at hm
            exact (ih (r.deriv c)).mpr ⟨p2, q, h2, hm⟩

/-! ## Lemmas about the dict model -/

theorem alookup_eq_none {β : Type} (k : String) (l : List (String × β)) :
    alookup k l = none ↔ k ∉ l.map Prod.fst := by
  induction l with
  | nil => simp [alookup]
  | cons e rest ih =>
      obtain ⟨k2, v⟩ := e
      by_cases h : k2 = k <;> simp [alookup, h, ih, eq_comm (a := k) (b := k2)]

theorem mem_of_alookup {β : Type} {k : String} {v : β} :
    ∀ {l : List (String × β)}, alookup k l = some v → (k, v) ∈ l := by
  intro l
  induction l with
  | nil => intro h; simp [alookup] at h
  | cons e rest ih =>
      obtain ⟨k2, v2⟩ := e
      intro h
      by_cases hk : k2 = k
      · subst hk
        simp [alookup] at h
        simp [h]
      · simp [alookup, hk] at h
        simp [ih h]

theorem alookup_of_mem_nodup {β : Type} {k : String} {v : β} :
    ∀ {l : List (String × β)}, (l.map Prod.fst).Nodup → (k, v) ∈ l →
      alookup k l = some v := by
  intro l
  induction l with
  | nil => intro _ h; simp at h
  | cons e rest ih =>
      obtain ⟨k2, v2⟩ := e
      intro hnd h
      rcases List.mem_cons.mp h with heq | hmem
      · injection heq with h1 h2
        subst h1
        subst h2
        simp [alookup]
      · have hk : k2 ≠ k := by
          rintro rfl
          have : k2 ∈ rest.map Prod.fst := List.mem_map.mpr ⟨(k2, v), hmem, rfl⟩
          exact (List.nodup_cons.mp (by simpa using hnd)).1 this
        simp only [alookup, if_neg hk]
        exact ih (List.nodup_cons.mp (by simpa using hnd)).2 hmem

theorem alookup_perm {β : Type} {l1 l2 : List (String × β)} (hp : l1.Perm l2)
    (hnd : (l1.map Prod.fst).Nodup) (k : String) : alookup k l1 = alookup k l2 := by
  have hnd2 : (l2.map Prod.fst).Nodup := ((hp.map Prod.fst).nodup_iff).mp hnd
  cases h : alookup k l1 with
  | some v =>
      exact (alookup_of_mem_nodup hnd2 (hp.mem_iff.mp (mem_of_alookup h))).symm
  | none =>
      symm
      rw [alookup_eq_none] at h ⊢
      intro hk
      exact h (((hp.map Prod.fst).mem_iff).mpr hk)

theorem alookup_dictInsert {β : Type} (k q : String) (v : β) :
    ∀ l : List (String × β),
      alookup q (dictInsert k v l) = if k = q then some v else alookup q l := by
  intro l
  induction l with
  | nil => simp [dictInsert, alookup]
  | cons e rest ih =>
      obtain ⟨k2, v2⟩ := e
      by_cases h : k2 = k
      · subst h
        by_cases hq : k2 = q <;> simp [dictInsert, alookup, hq]
      · by_cases hq : k2 = q
        · subst hq
          have : ¬ k = k2 := fun hh => h hh.symm
          simp [dictInsert, alookup, h, this]
        · simp [dictInsert, alookup, h, hq, ih]

theorem dictInsert_fresh {β : Type} (k : String) (v : β) :
    ∀ l : List (String × β), k ∉ l.map Prod.fst → dictInsert k v l = l ++ [(k, v)] := by
  intro l
  induction l with
  | nil => intro _; rfl
  | cons e rest ih =>
      obtain ⟨k2, v2⟩ := e
      intro h
      have h1 : k2 ≠ k := by
        rintro rfl
        exact h (by simp)
      simp only [dictInsert, if_neg h1, List.cons_append, List.cons.injEq, true_and]
      exact ih (fun hk => h (by simp [hk]))

theorem foldl_dictInsert_append :
    ∀ (l init : PState), ((init ++ l).map Prod.fst).Nodup →
      l.foldl (fun st e => dictInsert e.1 e.2 st) init = init ++ l := by
  intro l
  induction l with
  | nil => intro init _; simp
  | cons e rest ih =>
      intro init h
      have hmap : ((init.map Prod.fst) ++ e.1 :: rest.map Prod.fst).Nodup := by
        simpa using h
      have hfresh : e.1 ∉ init.map Prod.fst := by
        have hd := (List.nodup_append.mp hmap).2.2
        intro hk
        exact hd hk (by simp)
      have hstep : dictInsert e.1 e.2 init = init ++ [e] := dictInsert_fresh e.1 e.2 init hfresh
      rw [List.foldl_cons, hstep, ih (init ++ [e]) (by simpa [List.append_assoc] using h)]
      simp [List.append_assoc]

theorem registerAll_eq_self (l : PState) (hnd : (l.map Prod.fst).Nodup) :
    registerAll l = l := by
  simpa using foldl_dictInsert_append l [] (by simpa using hnd)

/-! ## Lemmas about the report ordering -/

theorem mem_insertDesc (x a : DuplicateMatch) :
    ∀ l : List DuplicateMatch, (a ∈ insertDesc x l ↔ a = x ∨ a ∈ l) := by
  intro l
  induction l with
  | nil => simp [insertDesc]
  | cons y ys ih =>
      rw [insertDesc]
      split
      · simp [or_comm, or_assoc, or_left_comm]
      · simp [ih]
        tauto

theorem insertDesc_perm (x : DuplicateMatch) :
    ∀ l : List DuplicateMatch, (insertDesc x l).Perm (x :: l) := by
  intro l
  induction l with
  | nil => exact List.Perm.refl _
  | cons y ys ih =>
      rw [insertDesc]
      split
      · exact List.Perm.refl _
      · exact (List.Perm.cons y ih).trans (List.Perm.swap x y ys)

theorem foldl_insertDesc_perm :
    ∀ (l acc : List DuplicateMatch),
      (l.foldl (fun acc x => insertDesc x acc) acc).Perm (l ++ acc) := by
  intro l
  induction l with
  | nil => intro acc; simp
  | cons x rest ih =>
      intro acc
      have h1 : (rest.foldl (fun acc x => insertDesc x acc) (insertDesc x acc)).Perm
          (rest ++ insertDesc x acc) := ih _
      have h2 : (rest ++ insertDesc x acc).Perm (rest ++ (x :: acc)) :=
        List.Perm.append_left rest (insertDesc_perm x acc)
      have h3 : (rest ++ (x :: acc)).Perm (x :: (rest ++ acc)) := List.perm_middle
      exact h1.trans (h2.trans h3)

theorem pairwise_insertDesc (x : DuplicateMatch) :
    ∀ {l : List DuplicateMatch}, List.Pairwise simOrd l →
      List.Pairwise simOrd (insertDesc x l) := by
  intro l
  induction l with
  | nil => intro _; simp [insertDesc, simOrd]
  | cons y ys ih =>
      intro h
      obtain ⟨hy, hys⟩ := List.pairwise_cons.mp h
      rw [insertDesc]
      split
      · rename_i hlt
        refine List.pairwise_cons.mpr ⟨?_, h⟩
        intro z hz
        rcases List.mem_cons.mp hz with rfl | hz2
        · exact le_of_lt hlt
        · exact le_trans (hy z hz2) (le_of_lt hlt)
      · rename_i hnlt
        refine List.pairwise_cons.mpr ⟨?_, ih hys⟩
        intro z hz
        rcases (mem_insertDesc x z ys).mp hz with rfl | hz2
        · exact le_of_not_lt hnlt
        · exact hy z hz2

theorem pairwise_foldl_insertDesc :
    ∀ (l acc : List DuplicateMatch), List.Pairwise simOrd acc →
      List.Pairwise simOrd (l.foldl (fun acc x => insertDesc x acc) acc) := by
  intro l
  induction l with
  | nil => intro acc h; simpa using h
  | cons x rest ih =>
      intro acc h
      exact ih (insertDesc x acc) (pairwise_insertDesc x h)

/-- `check_plagiarism`'s output is sorted by descending similarity. -/
theorem sortDesc_sorted (l : List DuplicateMatch) : List.Pairwise simOrd (sortDesc l) :=
  pairwise_foldl_insertDesc l [] (by simp)

/-! ## Lemmas about the duplicate detector -/

theorem identicalOf_eq_nil_of_common {s o : Sig} (h : commonOf s o = []) :
    identicalOf s o = [] := by
  unfold identicalOf
  rw [h]
  rfl

/-- Full characterization of one candidate step of `check_plagiarism`:
a match is produced exactly when the candidate is another student, some
common file has an identical digest, and the similarity reaches the
threshold; and then the match is determined. -/
theorem matchFor_eq_some_iff {sfiles : Sig} {t : ℚ} {who : String}
    {entry : String × Sig} {m : DuplicateMatch} :
    matchFor sfiles t who entry = some m ↔
      entry.1 ≠ who ∧ identicalOf sfiles entry.2 ≠ [] ∧
        t ≤ ((identicalOf sfiles entry.2).length : ℚ) /
          ((max sfiles.length entry.2.length : Nat) : ℚ) ∧
        m = ⟨entry.1,
          ((identicalOf sfiles entry.2).length : ℚ) /
            ((max sfiles.length entry.2.length : Nat) : ℚ),
          identicalOf sfiles entry.2, (commonOf sfiles entry.2).length,
          sfiles.length, entry.2.length⟩ := by
  by_cases h1 : entry.1 = who
  · simp [matchFor, h1]
  · by_cases h2 : commonOf sfiles entry.2 = []
    · have h3 := identicalOf_eq_nil_of_common h2
      simp [matchFor, h1, h2, h3]
    · by_cases h3 : identicalOf sfiles entry.2 = []
      · simp [matchFor, h1, h2, h3]
      · by_cases h4 : t ≤ ((identicalOf sfiles entry.2).length : ℚ) /
            ((max sfiles.length entry.2.length : Nat) : ℚ)
        · simp only [matchFor, if_neg h1, if_neg h2, if_neg h3, if_pos h4,
            Option.some.injEq]
          constructor
          · intro h
            exact ⟨h1, h3, h4, h.symm⟩
          · rintro ⟨-, -, -, rfl⟩
            rfl
        · have h4x : ¬ t ≤ ((identicalOf sfiles entry.2).length : ℚ) /
              (((sfiles.length : ℚ)) ⊔ ((entry.2.length : ℚ))) := by
            rwa [Nat.cast_max] at h4
          simp [matchFor, h1, h2, h3, h4, h4x]

theorem sortDesc_perm (l : List DuplicateMatch) : (sortDesc l).Perm l := by
  have h := foldl_insertDesc_perm l []
  simpa [sortDesc] using h

theorem mem_sortDesc {a : DuplicateMatch} {l : List DuplicateMatch} :
    a ∈ sortDesc l ↔ a ∈ l := (sortDesc_perm l).mem_iff

theorem mem_check_plagiarism_iff {st : PState} {A : String} {t : ℚ} {m : DuplicateMatch}
    {sfiles : Sig} (hA : alookup A st = some sfiles) :
    m ∈ check_plagiarism st A t ↔ ∃ entry ∈ st, matchFor sfiles t A entry = some m := by
  unfold check_plagiarism
  rw [hA]
  rw [mem_sortDesc, List.mem_filterMap]

theorem check_plagiarism_not_registered {st : PState} {a : String} {t : ℚ}
    (h : alookup a st = none) : check_plagiarism st a t = [] := by
  unfold check_plagiarism
  rw [h]

theorem check_plagiarism_perm {st1 st2 : PState} (hp : st1.Perm st2)
    (hnd : (st1.map Prod.fst).Nodup) (a : String) (t : ℚ) :
    (check_plagiarism st1 a t).Perm (check_plagiarism st2 a t) := by
  have hl := alookup_perm hp hnd a
  unfold check_plagiarism
  cases h : alookup a st2 with
  | none =>
      simp only [hl, h]
      exact List.Perm.refl _
  | some sfiles =>
      simp only [hl, h]
      have h1 := sortDesc_perm (st1.filterMap (matchFor sfiles t a))
      have h2 := sortDesc_perm (st2.filterMap (matchFor sfiles t a))
      exact h1.trans ((hp.filterMap _).trans h2.symm)

theorem alookup_report_aux (st : PState) (t : ℚ) (a : String) :
    ∀ l : PState, (l.map Prod.fst).Nodup →
      alookup a (l.filterMap fun entry =>
          let ms := check_plagiarism st entry.1 t
          if ms = [] then none else some (entry.1, ms)) =
        (if a ∈ l.map Prod.fst then
          (if check_plagiarism st a t = [] then none
           else some (check_plagiarism st a t))
         else none) := by
  intro l
  induction l with
  | nil => simp [alookup]
  | cons e rest ih =>
      intro hnd
      have hnd' : (e.1 :: rest.map Prod.fst).Nodup := by simpa using hnd
      obtain ⟨he, hrest⟩ := List.nodup_cons.mp hnd'
      have ihr := ih hrest
      by_cases hms : check_plagiarism st e.1 t = []
      · by_cases ha : e.1 = a
        · subst ha
          simp only [List.filterMap_cons, hms, if_pos rfl, ite_true]
          rw [ihr]
          simp [he, hms]
        · have ha2 : ¬ a = e.1 := fun h => ha h.symm
          simp only [List.filterMap_cons, hms, if_pos rfl, ite_true]
          rw [ihr]
          have hcond : (a ∈ e.1 :: rest.map Prod.fst) ↔ (a ∈ rest.map Prod.fst) := by
            simp [ha2]
          simp only [List.map_cons, hcond]
      · by_cases ha : e.1 = a
        · subst ha
          simp only [List.filterMap_cons, if_neg hms]
          simp [alookup, hms]
        · have ha2 : ¬ a = e.1 := fun h => ha h.symm
          simp only [List.filterMap_cons, if_neg hms]
          simp only [alookup, if_neg ha]
          rw [ihr]
          simp only [List.map_cons, List.mem_cons]
          by_cases hmem : a ∈ rest.map Prod.fst
          · simp [hmem]
          · simp [hmem, ha2]

theorem alookup_get_all (st : PState) (t : ℚ) (a : String)
    (hnd : (st.map Prod.fst).Nodup) :
    alookup a (get_all_plagiarism_report st t) =
      if a ∈ st.map Prod.fst then
        (if check_plagiarism st a t = [] then none
         else some (check_plagiarism st a t))
      else none := by
  have h := alookup_report_aux st t a st hnd
  simpa only [get_all_plagiarism_report] using h

theorem stC3_high_A : check_plagiarism stC3 "A" (8/10) = [] := by
  have h1 : matchFor sigA (8/10) "A" ("A", sigA) = none := by simp [matchFor]
  have h2 : matchFor sigA (8/10) "A" ("B", sigB) = none := by
    have hc : commonOf sigA sigB = ["f1", "f2", "f3", "f4"] := by decide
    have hi : identicalOf sigA sigB = ["f1", "f2", "f3"] := by decide
    simp only [matchFor, hc, hi]
    norm_num [sigA, sigB]
  have ha : alookup "A" [("A", sigA), ("B", sigB)] = some sigA := by decide
  simp [check_plagiarism, stC3, ha, h1, h2, sortDesc, List.filterMap_cons]

theorem stC3_high_B : check_plagiarism stC3 "B" (8/10) = [] := by
  have h1 : matchFor sigB (8/10) "B" ("B", sigB) = none := by simp [matchFor]
  have h2 : matchFor sigB (8/10) "B" ("A", sigA) = none := by
    have hc : commonOf sigB sigA = ["f1", "f2", "f3", "f4"] := by decide
    have hi : identicalOf sigB sigA = ["f1", "f2", "f3"] := by decide
    simp only [matchFor, hc, hi]
    norm_num [sigA, sigB]
  have hb : alookup "B" [("A", sigA), ("B", sigB)] = some sigB := by decide
  simp [check_plagiarism, stC3, hb, h1, h2, sortDesc, List.filterMap_cons]

theorem stC3_low_A : check_plagiarism stC3 "A" (3/4) = [mC3] := by
  have h1 : matchFor sigA (3/4) "A" ("A", sigA) = none := by simp [matchFor]
  have h2 : matchFor sigA (3/4) "A" ("B", sigB) = some mC3 := by
    have hc : commonOf sigA sigB = ["f1", "f2", "f3", "f4"] := by decide
    have hi : identicalOf sigA sigB = ["f1", "f2", "f3"] := by decide
    simp only [matchFor, hc, hi]
    norm_num [sigA, sigB, mC3]
    simp
  have ha : alookup "A" [("A", sigA), ("B", sigB)] = some sigA := by decide
  simp [check_plagiarism, stC3, ha, h1, h2, sortDesc, insertDesc, List.filterMap_cons]

theorem stC3_report_high : get_all_plagiarism_report stC3 (8/10) = [] := by
  have hA := stC3_high_A
  have hB := stC3_high_B
  simp only [stC3] at hA hB
  simp [get_all_plagiarism_report, stC3, List.filterMap_cons, hA, hB]

/-- C10: the duplicate report never pairs a student with themself — no match
in `check_plagiarism st a t` has `a` as its suspect (the
`other_student == student_alias: continue` guard of plagiarism_checker.py
lines 64-65). -/
theorem claim_C10_no_self_match (st : PState) (a : String) (t : ℚ) (m : DuplicateMatch)
    (h : m ∈ check_plagiarism st a t) : m.suspicious_student ≠ a := by
  unfold check_plagiarism at h
  cases hA : alookup a st with
  | none =>
      rw [hA] at h
      simp at h
  | some sfiles =>
      rw [hA] at h
      rw [mem_sortDesc, List.mem_filterMap] at h
      obtain ⟨entry, -, heq⟩ := h
      obtain ⟨hne, -, -, hm⟩ := matchFor_eq_some_iff.mp heq
      rw [hm]
      exact hne

theorem claim_C10_witness : mC3.suspicious_student ≠ "A" :=
  claim_C10_no_self_match stC3 "A" (3/4) mC3 (by rw [stC3_low_A]; simp)

/-- C3: for registered students A ≠ B, a DuplicateMatch from A to B is
emitted iff some common path has an identical digest and
|identical| / max(|files(A)|, |files(B)|) is at least the threshold; in the
3-identical-of-4-common scenario, threshold 0.8 records no match (and the
full report is empty) while threshold 0.75 records exactly one
DuplicateMatch whose `identical_files` has length 3. -/
theorem claim_C3_emission :
    (∀ (st : PState) (A B : String) (t : ℚ) (sfiles ofiles : Sig),
      (st.map Prod.fst).Nodup → alookup A st = some sfiles →
      alookup B st = some ofiles → A ≠ B →
      ((∃ m ∈ check_plagiarism st A t, m.suspicious_student = B) ↔
        (identicalOf sfiles ofiles ≠ [] ∧
          t ≤ ((identicalOf sfiles ofiles).length : ℚ) /
            ((max sfiles.length ofiles.length : Nat) : ℚ))))
    ∧ check_plagiarism stC3 "A" (8/10) = []
    ∧ check_plagiarism stC3 "B" (8/10) = []
    ∧ get_all_plagiarism_report stC3 (8/10) = []
    ∧ check_plagiarism stC3 "A" (3/4) = [mC3]
    ∧ mC3.identical_files.length = 3 := by
  refine ⟨?_, stC3_high_A, stC3_high_B, stC3_report_high, stC3_low_A, rfl⟩
  intro st A B t sfiles ofiles hnd hA hB hAB
  constructor
  · rintro ⟨m, hm, hsusp⟩
    rw [mem_check_plagiarism_iff hA] at hm
    obtain ⟨entry, hent, heq⟩ := hm
    obtain ⟨hne, hid, ht, hmeq⟩ := matchFor_eq_some_iff.mp heq
    have h1 : entry.1 = B := by rw [hmeq] at hsusp; exact hsusp
    have h2 : alookup entry.1 st = some entry.2 := alookup_of_mem_nodup hnd hent
    rw [h1, hB] at h2
    injection h2 with h2
    rw [h2]
    exact ⟨hid, ht⟩
  · rintro ⟨hid, ht⟩
    have hBmem : (B, ofiles) ∈ st := mem_of_alookup hB
    refine ⟨⟨B,
      ((identicalOf sfiles ofiles).length : ℚ) /
        ((max sfiles.length ofiles.length : Nat) : ℚ),
      identicalOf sfiles ofiles, (commonOf sfiles ofiles).length,
      sfiles.length, ofiles.length⟩, ?_, rfl⟩
    rw [mem_check_plagiarism_iff hA]
    exact ⟨(B, ofiles), hBmem,
      matchFor_eq_some_iff.mpr ⟨fun h => hAB h.symm, hid, ht, rfl⟩⟩

/-- C9: the full duplicate report contains exactly the registered students
with a non-empty match list (absent, not mapped to `[]`, otherwise), each
mapped to `check_plagiarism`'s list, which is sorted by descending
similarity and only holds matches at or above the threshold; with zero
students both the report and any query are `[]` (and querying before any
registration is total — it returns rather than erroring). -/
theorem claim_C9_report_structure (st : PState) (t : ℚ) (a : String)
    (hnd : (st.map Prod.fst).Nodup) :
    (alookup a (get_all_plagiarism_report st t) ≠ none ↔
      a ∈ st.map Prod.fst ∧ check_plagiarism st a t ≠ []) ∧
    (∀ ms, alookup a (get_all_plagiarism_report st t) = some ms →
      ms = check_plagiarism st a t) ∧
    List.Pairwise simOrd (check_plagiarism st a t) ∧
    (∀ m ∈ check_plagiarism st a t, t ≤ m.similarity_score) ∧
    get_all_plagiarism_report ([] : PState) t = [] ∧
    check_plagiarism ([] : PState) a t = [] := by
  have hrep := alookup_get_all st t a hnd
  refine ⟨?_, ?_, ?_, ?_, rfl, rfl⟩
  · rw [hrep]
    by_cases hm : a ∈ st.map Prod.fst
    · by_cases hel : check_plagiarism st a t = [] <;> simp [hm, hel]
    · simp [hm]
  · intro ms hms
    rw [hrep] at hms
    by_cases hm : a ∈ st.map Prod.fst
    · by_cases hel : check_plagiarism st a t = []
      · simp [hm, hel] at hms
      · simp [hm, hel] at hms
        exact hms.symm
    · simp [hm] at hms
  · unfold check_plagiarism
    cases hA : alookup a st with
    | none => simp
    | some sfiles => exact sortDesc_sorted _
  · intro m hm
    unfold check_plagiarism at hm
    cases hA : alookup a st with
    | none => rw [hA] at hm; simp at hm
    | some sfiles =>
        rw [hA] at hm
        rw [mem_sortDesc, List.mem_filterMap] at hm
        obtain ⟨entry, -, heq⟩ := hm
        obtain ⟨-, -, ht, hmeq⟩ := matchFor_eq_some_iff.mp heq
        rw [hmeq]
        exact ht

theorem claim_C9_witness :
    alookup "A" (get_all_plagiarism_report stC3 (3/4)) ≠ none :=
  (claim_C9_report_structure stC3 (3/4) "A" (by decide)).1.mpr
    ⟨by decide, by rw [stC3_low_A]; simp⟩

/-- Evaluations for the C4 counterexample. -/
theorem l41_A_eval : check_plagiarism l41 "A" (8/10) = [mB, mC] := by
  have h1 : matchFor sig1 (8/10) "A" ("A", sig1) = none := by simp [matchFor]
  have h2 : matchFor sig1 (8/10) "A" ("B", sig1) = some mB := by
    have hc : commonOf sig1 sig1 = ["f"] := by decide
    have hi : identicalOf sig1 sig1 = ["f"] := by decide
    simp only [matchFor, hc, hi]
    norm_num [sig1, mB]
    simp
  have h3 : matchFor sig1 (8/10) "A" ("C", sig1) = some mC := by
    have hc : commonOf sig1 sig1 = ["f"] := by decide
    have hi : identicalOf sig1 sig1 = ["f"] := by decide
    simp only [matchFor, hc, hi]
    norm_num [sig1, mC]
    simp
  have ha : alookup "A" [("A", sig1), ("B", sig1), ("C", sig1)] = some sig1 := by decide
  simp [check_plagiarism, l41, ha, h1, h2, h3, sortDesc, insertDesc,
    List.filterMap_cons, mB, mC]

theorem l42_A_eval : check_plagiarism l42 "A" (8/10) = [mC, mB] := by
  have h1 : matchFor sig1 (8/10) "A" ("A", sig1) = none := by simp [matchFor]
  have h2 : matchFor sig1 (8/10) "A" ("B", sig1) = some mB := by
    have hc : commonOf sig1 sig1 = ["f"] := by decide
    have hi : identicalOf sig1 sig1 = ["f"] := by decide
    simp only [matchFor, hc, hi]
    norm_num [sig1, mB]
    simp
  have h3 : matchFor sig1 (8/10) "A" ("C", sig1) = some mC := by
    have hc : commonOf sig1 sig1 = ["f"] := by decide
    have hi : identicalOf sig1 sig1 = ["f"] := by decide
    simp only [matchFor, hc, hi]
    norm_num [sig1, mC]
    simp
  have ha : alookup "A" [("A", sig1), ("C", sig1), ("B", sig1)] = some sig1 := by decide
  simp [check_plagiarism, l42, ha, h1, h2, h3, sortDesc, insertDesc,
    List.filterMap_cons, mB, mC]

theorem l41_report_A : alookup "A" (get_all_plagiarism_report l41 (8/10)) = some [mB, mC] := by
  have h := l41_A_eval
  simp only [l41] at h
  simp [get_all_plagiarism_report, l41, List.filterMap_cons, h, alookup]

theorem l42_report_A : alookup "A" (get_all_plagiarism_report l42 (8/10)) = some [mC, mB] := by
  have h := l42_A_eval
  simp only [l42] at h
  simp [get_all_plagiarism_report, l42, List.filterMap_cons, h, alookup]

/-- C4 counterexample: three students with one identical file each,
registered as [A, B, C] versus [A, C, B] (a permutation), give student A
the match lists [B, C] and [C, B] — same matches, different order, because
Python's stable sort keeps tied similarities in dict-insertion order.  So
the full report is not identical across registration orders as the claim
states. -/
theorem claim_C4_counterexample :
    l41.Perm l42 ∧ registerAll l41 = l41 ∧ registerAll l42 = l42 ∧
      alookup "A" (get_all_plagiarism_report (registerAll l41) (8/10)) = some [mB, mC] ∧
      alookup "A" (get_all_plagiarism_report (registerAll l42) (8/10)) = some [mC, mB] ∧
      ([mB, mC] : List DuplicateMatch) ≠ [mC, mB] := by
  refine ⟨by decide, by decide, by decide, ?_, ?_, ?_⟩
  · rw [show registerAll l41 = l41 from by decide]
    exact l41_report_A
  · rw [show registerAll l42 = l42 from by decide]
    exact l42_report_A
  · simp [mB, mC]

/-- C4 amended: registering the same students (fixed signatures) in any
order yields the same set of flagged students, and for each flagged
student the same matches up to order (a permutation); the order of
equal-similarity matches may differ. -/
theorem claim_C4_order_up_to_ties (l1 l2 : PState) (t : ℚ) (a : String)
    (hp : l1.Perm l2) (hnd : (l1.map Prod.fst).Nodup) :
    (alookup a (get_all_plagiarism_report (registerAll l1) t) = none ↔
      alookup a (get_all_plagiarism_report (registerAll l2) t) = none) ∧
    (∀ ms1 ms2,
      alookup a (get_all_plagiarism_report (registerAll l1) t) = some ms1 →
      alookup a (get_all_plagiarism_report (registerAll l2) t) = some ms2 →
      ms1.Perm ms2) := by
  have hnd2 : (l2.map Prod.fst).Nodup := ((hp.map Prod.fst).nodup_iff).mp hnd
  rw [registerAll_eq_self l1 hnd, registerAll_eq_self l2 hnd2]
  have h1 := alookup_get_all l1 t a hnd
  have h2 := alookup_get_all l2 t a hnd2
  have hcp := check_plagiarism_perm hp hnd a t
  have hmem : (a ∈ l1.map Prod.fst) ↔ (a ∈ l2.map Prod.fst) := (hp.map Prod.fst).mem_iff
  have hempty : (check_plagiarism l1 a t = []) ↔ (check_plagiarism l2 a t = []) := by
    constructor
    · intro h
      exact ((h ▸ hcp : ([] : List DuplicateMatch).Perm _).symm).eq_nil
    · intro h
      exact (h ▸ hcp : _).eq_nil
  constructor
  · rw [h1, h2]
    by_cases hm : a ∈ l1.map Prod.fst
    · rw [if_pos hm, if_pos (hmem.mp hm)]
      by_cases hel : check_plagiarism l1 a t = []
      · simp [hel, hempty.mp hel]
      · have hel2 : ¬ check_plagiarism l2 a t = [] := fun hh => hel (hempty.mpr hh)
        simp [hel, hel2]
    · rw [if_neg hm, if_neg (fun hh => hm (hmem.mpr hh))]
  · intro ms1 ms2 hs1 hs2
    rw [h1] at hs1
    rw [h2] at hs2
    by_cases hm : a ∈ l1.map Prod.fst
    · by_cases hel : check_plagiarism l1 a t = []
      · simp [hm, hel] at hs1
      · rw [if_pos hm, if_neg hel] at hs1
        rw [if_pos (hmem.mp hm), if_neg (fun hh => hel (hempty.mpr hh))] at hs2
        injection hs1 with hs1
        injection hs2 with hs2
        rw [← hs1, ← hs2]
        exact hcp
    · rw [if_neg hm] at hs1
      cases hs1

theorem lw1_A_eval : check_plagiarism lw1 "A" (8/10) = [mB] := by
  have h1 : matchFor sig1 (8/10) "A" ("A", sig1) = none := by simp [matchFor]
  have h2 : matchFor sig1 (8/10) "A" ("B", sig1) = some mB := by
    have hc : commonOf sig1 sig1 = ["f"] := by decide
    have hi : identicalOf sig1 sig1 = ["f"] := by decide
    simp only [matchFor, hc, hi]
    norm_num [sig1, mB]
    simp
  have ha : alookup "A" [("A", sig1), ("B", sig1)] = some sig1 := by decide
  simp [check_plagiarism, lw1, ha, h1, h2, sortDesc, insertDesc, List.filterMap_cons]

theorem lw2_A_eval : check_plagiarism lw2 "A" (8/10) = [mB] := by
  have h1 : matchFor sig1 (8/10) "A" ("A", sig1) = none := by simp [matchFor]
  have h2 : matchFor sig1 (8/10) "A" ("B", sig1) = some mB := by
    have hc : commonOf sig1 sig1 = ["f"] := by decide
    have hi : identicalOf sig1 sig1 = ["f"] := by decide
    simp only [matchFor, hc, hi]
    norm_num [sig1, mB]
    simp
  have ha : alookup "A" [("B", sig1), ("A", sig1)] = some sig1 := by decide
  simp [check_plagiarism, lw2, ha, h1, h2, sortDesc, insertDesc, List.filterMap_cons]

theorem lw2_B_eval : check_plagiarism lw2 "B" (8/10) = [mA] := by
  have h1 : matchFor sig1 (8/10) "B" ("B", sig1) = none := by simp [matchFor]
  have h2 : matchFor sig1 (8/10) "B" ("A", sig1) = some mA := by
    have hc : commonOf sig1 sig1 = ["f"] := by decide
    have hi : identicalOf sig1 sig1 = ["f"] := by decide
    simp only [matchFor, hc, hi]
    norm_num [sig1, mA]
    simp
  have hb : alookup "B" [("B", sig1), ("A", sig1)] = some sig1 := by decide
  simp [check_plagiarism, lw2, hb, h1, h2, sortDesc, insertDesc, List.filterMap_cons]

theorem lw1_report_A : alookup "A" (get_all_plagiarism_report lw1 (8/10)) = some [mB] := by
  have h := lw1_A_eval
  simp only [lw1] at h
  simp [get_all_plagiarism_report, lw1, List.filterMap_cons, h, alookup]

theorem lw2_report_A : alookup "A" (get_all_plagiarism_report lw2 (8/10)) = some [mB] := by
  have hA := lw2_A_eval
  have hB := lw2_B_eval
  simp only [lw2] at hA hB
  simp [get_all_plagiarism_report, lw2, List.filterMap_cons, hA, hB, alookup]

theorem claim_C4_witness : ([mB] : List DuplicateMatch).Perm [mB] := by
  have e1 : alookup "A" (get_all_plagiarism_report (registerAll lw1) (8/10)) = some [mB] := by
    rw [show registerAll lw1 = lw1 from by decide]
    exact lw1_report_A
  have e2 : alookup "A" (get_all_plagiarism_report (registerAll lw2) (8/10)) = some [mB] := by
    rw [show registerAll lw2 = lw2 from by decide]
    exact lw2_report_A
  exact (claim_C4_order_up_to_ties lw1 lw2 (8/10) "A" (by decide) (by decide)).2 [mB] [mB] e1 e2

theorem passFail_cases (b : Bool) : passFail b = "PASS" ∨ passFail b = "FAIL" := by
  cases b <;> simp [passFail]

theorem passFail_eq_pass {b : Bool} : passFail b = "PASS" ↔ b = true := by
  cases b <;> simp [passFail]

theorem run_check_ok {snap : Snapshot} {check_id check_type : String} {params : Params}
    {s d : String} (h : checkBody snap check_type params = .ok (s, d)) :
    run_check snap check_id check_type params = ⟨check_id, s, d⟩ := by
  unfold run_check
  rw [h]

theorem run_check_err {snap : Snapshot} {check_id check_type : String} {params : Params}
    {e : String} (h : checkBody snap check_type params = .error e) :
    run_check snap check_id check_type params = ⟨check_id, "ERROR", exceptionDetails check_id e⟩ := by
  unfold run_check
  rw [h]

theorem checkBody_ok_status (snap : Snapshot) (check_type : String) (params : Params)
    {s d : String} (h : checkBody snap check_type params = .ok (s, d)) :
    s = "PASS" ∨ s = "FAIL" ∨ s = "ERROR" := by
  unfold checkBody at h
  repeat' split at h
  all_goals try (exact Except.noConfusion h)
  all_goals
    injection h with h2
  all_goals
    injection h2 with h3 h4
  all_goals subst h3
  all_goals first
    | (rcases passFail_cases _ with hh | hh
       · exact Or.inl hh
       · exact Or.inr (Or.inl hh))
    | exact Or.inr (Or.inr rfl)

theorem checkBody_unknown (snap : Snapshot) (params : Params) {t : String}
    (h : t ∉ recognizedTypes) :
    checkBody snap t params = .ok ("ERROR", "Неизвестный тип проверки: " ++ t) := by
  have n1 : ¬ t = "repo_exists" := by
    intro hh; exact h (by rw [hh]; decide)
  have n2 : ¬ t = "file_exists" := by
    intro hh; exact h (by rw [hh]; decide)
  have n3 : ¬ t = "commit_message_regex" := by
    intro hh; exact h (by rw [hh]; decide)
  have n4 : ¬ t = "issues_count" := by
    intro hh; exact h (by rw [hh]; decide)
  have n5 : ¬ t = "pr_merged_count" := by
    intro hh; exact h (by rw [hh]; decide)
  unfold checkBody
  rw [if_neg n1, if_neg n2, if_neg n3, if_neg n4, if_neg n5]

/-- C5: `run_check` is total (it is a function into `CheckResult`, so it
always returns exactly one outcome, never raising) with status in
{PASS, FAIL, ERROR} and the given check id; an unrecognized type always
yields ERROR with details naming the unknown type; any exception raised
while evaluating a recognized check yields ERROR with details naming the
check id and the exception message. -/
theorem claim_C5_run_check_total (snap : Snapshot) (check_id check_type : String)
    (params : Params) :
    ((run_check snap check_id check_type params).status = "PASS" ∨
     (run_check snap check_id check_type params).status = "FAIL" ∨
     (run_check snap check_id check_type params).status = "ERROR") ∧
    (run_check snap check_id check_type params).id = check_id ∧
    (check_type ∉ recognizedTypes →
      run_check snap check_id check_type params =
        ⟨check_id, "ERROR", "Неизвестный тип проверки: " ++ check_type⟩) ∧
    (∀ e, checkBody snap check_type params = .error e →
      run_check snap check_id check_type params =
        ⟨check_id, "ERROR", exceptionDetails check_id e⟩) := by
  refine ⟨?_, ?_, ?_, ?_⟩
  · cases hb : checkBody snap check_type params with
    | ok p =>
        obtain ⟨s, d⟩ := p
        rw [run_check_ok hb]
        exact checkBody_ok_status snap check_type params hb
    | error e =>
        rw [run_check_err hb]
        right; right; rfl
  · cases hb : checkBody snap check_type params with
    | ok p =>
        obtain ⟨s, d⟩ := p
        rw [run_check_ok hb]
    | error e =>
        rw [run_check_err hb]
  · intro h
    exact run_check_ok (checkBody_unknown snap params h)
  · intro e he
    exact run_check_err he

theorem claim_C5_witness :
    run_check snapC1 "x" "wrong_kind" [] =
      ⟨"x", "ERROR", "Неизвестный тип проверки: wrong_kind"⟩ ∧
    run_check snapC1 "c9" "file_exists" [] =
      ⟨"c9", "ERROR", exceptionDetails "c9" "TypeError: missing required argument path"⟩ := by
  constructor
  · exact (claim_C5_run_check_total snapC1 "x" "wrong_kind" []).2.2.1 (by decide)
  · exact (claim_C5_run_check_total snapC1 "c9" "file_exists" []).2.2.2
      "TypeError: missing required argument path" (by rfl)

/-- C2: for a `commit_message_regex` check evaluated against a snapshot
with reachable metadata, the outcome is PASS iff the commit list is
non-empty and every commit message matches the pattern anchored at
position 0 — i.e. the pattern matches a prefix of the message, not
necessarily the whole string; an empty commit list always yields FAIL. -/
theorem claim_C2_commit_regex (snap : Snapshot) (info : RepoInfo) (check_id : String)
    (r : Regex) (h : snap.repoInfo = some info) :
    ((run_check snap check_id "commit_message_regex"
        [("pattern", PyVal.vregex r)]).status = "PASS" ↔
      (snap.commits ≠ [] ∧ ∀ c ∈ snap.commits,
        ∃ p q : List Char, c.message.data = p ++ q ∧ matchExact r p = true)) ∧
    (snap.commits = [] →
      (run_check snap check_id "commit_message_regex"
        [("pattern", PyVal.vregex r)]).status = "FAIL") := by
  have hrc : run_check snap check_id "commit_message_regex" [("pattern", PyVal.vregex r)]
      = ⟨check_id, passFail (check_commit_message_regex snap r), ""⟩ := rfl
  have hcc : check_commit_message_regex snap r
      = (if snap.commits.isEmpty then false
         else snap.commits.all fun c => reMatch r c.message.data) := by
    unfold check_commit_message_regex get_commits_cached
    rw [h]
  constructor
  · rw [hrc]
    simp only [passFail_eq_pass, hcc]
    cases hc : snap.commits with
    | nil => simp
    | cons c cs =>
        simp only [List.isEmpty_cons, if_neg Bool.false_ne_true, List.all_eq_true]
        constructor
        · intro hall
          refine ⟨by simp, ?_⟩
          intro x hx
          exact (reMatch_iff x.message.data r).mp (hall x hx)
        · rintro ⟨-, hall⟩
          intro x hx
          exact (reMatch_iff x.message.data r).mpr (hall x hx)
  · intro hc
    rw [hrc]
    simp [hcc, hc, passFail]

theorem claim_C2_witness :
    (run_check snapC2 "c" "commit_message_regex"
      [("pattern", PyVal.vregex patLab)]).status = "PASS" :=
  (claim_C2_commit_regex snapC2 infoPub "c" patLab rfl).1.mpr
    ⟨by decide, by
      intro c hc
      have hcm : c = ⟨"lab1: init"⟩ := by simpa [snapC2] using hc
      subst hcm
      exact ⟨"lab".data, "1: init".data, by decide, by decide⟩⟩

/-- C7: when repository metadata is unreachable the pipeline returns the
terminal failure result (error "Repository not found") with the
human-readable failure-report message "Репозиторий не найден или
недоступен." ("repository not found or inaccessible") and runs no further
step — no check outcome is produced and the plagiarism state is unchanged;
likewise a private repository gives error "Private repository" with
message "Репозиторий является приватным." ("repository is private"). -/
theorem claim_C7_terminal_failures (student_alias : String) (checks : List CheckSpec)
    (snap : Snapshot) (digest : String → String) (st : PState) :
    (snap.repoInfo = none →
      process_single_student student_alias checks snap digest st =
        (.errorResult "Repository not found"
          (some "Репозиторий не найден или недоступен."), st)) ∧
    (∀ info, snap.repoInfo = some info → info.isPrivate = true →
      process_single_student student_alias checks snap digest st =
        (.errorResult "Private repository"
          (some "Репозиторий является приватным."), st)) := by
  constructor
  · intro h
    unfold process_single_student
    rw [h]
  · intro info h hp
    unfold process_single_student
    rw [h]
    simp [hp]

theorem claim_C7_witness :
    process_single_student "bob" [] snapNone digId [] =
      (.errorResult "Repository not found"
        (some "Репозиторий не найден или недоступен."), ([] : PState)) ∧
    process_single_student "bob" [] snapPriv digId [] =
      (.errorResult "Private repository"
        (some "Репозиторий является приватным."), ([] : PState)) :=
  ⟨(claim_C7_terminal_failures "bob" [] snapNone digId []).1 rfl,
   (claim_C7_terminal_failures "bob" [] snapPriv digId []).2
     ⟨true, "main", "https://example.test/repo"⟩ rfl rfl⟩

theorem pyScore_pos_eq (p t : Nat) (h : 0 < t) :
    pyScore p t = 100 * (p : ℚ) / (t : ℚ) := by
  unfold pyScore
  rw [if_pos h]
  ring

theorem pyScore_total_zero (p : Nat) : pyScore p 0 = 0 := by
  unfold pyScore
  simp

theorem pyScore_nonneg (p t : Nat) : 0 ≤ pyScore p t := by
  unfold pyScore
  split
  · positivity
  · exact le_refl 0

theorem pyScore_le_100 (p t : Nat) (h : p ≤ t) : pyScore p t ≤ 100 := by
  unfold pyScore
  split
  · rename_i ht
    have htq : (0 : ℚ) < (t : ℚ) := by exact_mod_cast ht
    have h1 : (p : ℚ) / (t : ℚ) ≤ 1 := by
      rw [div_le_one htq]
      exact_mod_cast h
    calc (p : ℚ) / (t : ℚ) * 100 ≤ 1 * 100 :=
          mul_le_mul_of_nonneg_right h1 (by norm_num)
      _ = 100 := by norm_num
  · norm_num

/-- C6: every success StudentResult carries score = 100·passed/total where
passed counts PASS outcomes and total counts checks; the score is exactly
0 when there are zero checks, and always lies in [0, 100]. -/
theorem claim_C6_score (student_alias : String) (checks : List CheckSpec) (snap : Snapshot)
    (digest : String → String) (st : PState) (score : ℚ) (passed total : Nat)
    (results : List CheckResult)
    (h : (process_single_student student_alias checks snap digest st).1 =
      .successResult score passed total results) :
    score = pyScore passed total ∧
    passed = results.countP (fun r => r.status == "PASS") ∧
    total = results.length ∧
    (total = 0 → score = 0) ∧
    (0 < total → score = 100 * (passed : ℚ) / (total : ℚ)) ∧
    0 ≤ score ∧ score ≤ 100 := by
  unfold process_single_student at h
  cases hri : snap.repoInfo with
  | none =>
      rw [hri] at h
      exact absurd h (by simp)
  | some info =>
      simp only [hri] at h
      cases hpriv : info.isPrivate with
      | true =>
          simp [hpriv] at h
      | false =>
          simp only [hpriv, Bool.false_eq_true, if_false] at h
          cases hrc : runAllChecks snap checks with
          | error e =>
              simp [hrc] at h
          | ok res =>
              simp only [hrc] at h
              simp only [StudentOutcome.successResult.injEq] at h
              obtain ⟨hsc, hp, ht, hres⟩ := h
              subst hres
              subst hp
              subst ht
              subst hsc
              refine ⟨rfl, rfl, rfl, ?_, ?_, ?_, ?_⟩
              · intro h0
                rw [h0, pyScore_total_zero]
              · intro hpos
                exact pyScore_pos_eq _ _ hpos
              · exact pyScore_nonneg _ _
              · exact pyScore_le_100 _ _ (List.countP_le_length _)

theorem claim_C6_witness :
    (0 : ℚ) = pyScore 0 0 ∧ (0 : ℚ) ≤ 0 ∧ (0 : ℚ) ≤ 100 := by
  have h := claim_C6_score "bob" [] snapC1 digId [] 0 0 0 [] rfl
  exact ⟨h.1, h.2.2.2.2.2.1, h.2.2.2.2.2.2⟩

/-- C1 (code bug evidence): on the spec's two-check scenario (README.md
present, zero merged pull requests) the engine itself returns PASS for the
file check and FAIL for the PR check, and 1 pass out of 2 scores 50 — but
the pipeline returns an error StudentResult, because `run_check` is defined
with 3 parameters (engine.py line 70) while `process_single_student` calls
it with 4 (batch_processor.py lines 82-87), a call CPython rejects with a
TypeError before any check is evaluated. -/
theorem claim_C1_arity_bug :
    (process_single_student "alice" checksC1 snapC1 digId []).1 =
      .errorResult "TypeError: run_check() takes 4 positional arguments but 5 were given"
        none ∧
    run_check snapC1 "c1" "file_exists" [("path", PyVal.vstr "README.md")] =
      ⟨"c1", "PASS", ""⟩ ∧
    run_check snapC1 "c2" "pr_merged_count" [("min_count", PyVal.vint 1)] =
      ⟨"c2", "FAIL", ""⟩ ∧
    pyScore 1 2 = 50 := by
  refine ⟨by decide, by decide, by decide, by norm_num [pyScore]⟩

/-- C8 supporting lemma: one step of the signature fold. -/
theorem alookup_sigStep_ne_none (digest : String → String) (z : ZipData) (sig : Sig)
    (e : ZipEntry) (q : String) :
    (alookup q (sigStep digest z sig e) ≠ none ↔
      ((inIgnoredDir e.name = false ∧ hasIgnoredExt e.name = false ∧
        readNonempty z e = true ∧ stripAll e.name (rootDir z) = q) ∨
       alookup q sig ≠ none)) := by
  unfold sigStep readNonempty
  by_cases h1 : inIgnoredDir e.name = true
  · simp [h1]
  · by_cases h2 : hasIgnoredExt e.name = true
    · simp [h1, h2]
    · cases hr : read_file z (stripAll e.name (rootDir z)) with
      | none => simp [h1, h2, hr]
      | some c =>
          by_cases hc : c = ""
          · simp [h1, h2, hr, hc]
          · simp only [h1, h2, hr, hc, Bool.not_eq_true] at *
            simp only [Bool.false_eq_true, if_false, hr, if_neg hc]
            rw [alookup_dictInsert]
            by_cases hq : stripAll e.name (rootDir z) = q
            · simp [hq, h1, h2, hc]
            · simp [hq, h1, h2, hc]

theorem foldl_sigStep_ne_none (digest : String → String) (z : ZipData) :
    ∀ (l : List ZipEntry) (sig : Sig) (q : String),
      (alookup q (l.foldl (sigStep digest z) sig) ≠ none ↔
        ((∃ e ∈ l, inIgnoredDir e.name = false ∧ hasIgnoredExt e.name = false ∧
          readNonempty z e = true ∧ stripAll e.name (rootDir z) = q) ∨
         alookup q sig ≠ none)) := by
  intro l
  induction l with
  | nil => simp
  | cons e rest ih =>
      intro sig q
      rw [List.foldl_cons, ih, alookup_sigStep_ne_none]
      simp only [List.mem_cons]
      constructor
      · rintro (⟨e2, he2, hp⟩ | (hstep | hbase))
        · exact Or.inl ⟨e2, Or.inr he2, hp⟩
        · exact Or.inl ⟨e, Or.inl rfl, hstep⟩
        · exact Or.inr hbase
      · rintro (⟨e2, (rfl | he2), hp⟩ | hbase)
        · exact Or.inr (Or.inl hp)
        · exact Or.inl ⟨e2, he2, hp⟩
        · exact Or.inr (Or.inr hbase)

/-- C8 amended: the computed signature contains exactly the normalized
paths of archive members that are files under the root, not inside an
ignored directory, without an ignored extension, and — the part the claim
omits — whose content reads back as a non-empty UTF-8 string (the
`if content:` guard also drops empty and undecodable files). -/
theorem claim_C8_signature_keys (digest : String → String) (z : ZipData) (q : String) :
    alookup q (computeSignatures digest z) ≠ none ↔
      ∃ e ∈ z.entries, fileFilter (rootDir z) e = true ∧
        inIgnoredDir e.name = false ∧ hasIgnoredExt e.name = false ∧
        readNonempty z e = true ∧ stripAll e.name (rootDir z) = q := by
  unfold computeSignatures
  rw [foldl_sigStep_ne_none]
  simp only [alookup, ne_eq, not_true_eq_false, or_false, List.mem_filter]
  constructor
  · rintro ⟨e, ⟨he, hf⟩, hp⟩
    exact ⟨e, he, hf, hp⟩
  · rintro ⟨e, he, hf, hp⟩
    exact ⟨e, ⟨he, hf⟩, hp⟩

/-- C8 counterexample: an archive whose only file `a.txt` is empty.  The
file passes every exclusion criterion the claim lists (it is a file under
the root, in no ignored directory, with no ignored extension), yet the
signature omits it; with non-empty content the same file is mapped to the
digest of its content. -/
theorem claim_C8_counterexample :
    (⟨"r/a.txt", some ""⟩ : ZipEntry) ∈ zC8.entries ∧
    fileFilter (rootDir zC8) ⟨"r/a.txt", some ""⟩ = true ∧
    inIgnoredDir "r/a.txt" = false ∧
    hasIgnoredExt "r/a.txt" = false ∧
    stripAll "r/a.txt" (rootDir zC8) = "a.txt" ∧
    alookup "a.txt" (computeSignatures digId zC8) = none ∧
    computeSignatures digId zC8b = [("a.txt", digId "x")] := by
  refine ⟨by decide, by decide, by decide, by decide, by decide, by decide, by decide⟩

theorem claim_C8_witness :
    alookup "a.txt" (computeSignatures digId zC8b) ≠ none :=
  (claim_C8_signature_keys digId zC8b "a.txt").mpr
    ⟨⟨"r/a.txt", some "x"⟩, by decide, by decide, by decide, by decide, by decide, by decide⟩
